import Mathlib

/-!
Verification development for `predict_with_rf.py`: two artifact-loading
NPS predictors (`predict_nps_with_rf`, `predict_nps_with_skynet`) and an
interactive console entry point (`main`).

The Python program is shallowly embedded.  Prediction values (Python
floats) are an abstract type `V`; the opaque deserialized scaler and model
are functions supplied by the environment; `joblib.load` and
`os.path.exists` are supplied by a `PyEnv` structure describing the
filesystem state.  Each predictor returns its outcome (`Except Exc V`,
mirroring Python's raised exceptions) together with the list of artifact
file paths passed to `joblib.load`, in call order, so that "no file was
read" is expressible.
-/

set_option autoImplicit false

namespace PredictWithRF

/-- The Python exception classes relevant to this program's handlers:
`except ValueError` and `except Exception` in `main`, plus the kinds the
embedded operations can raise. -/
inductive ExcKind where
  | valueError
  | fileNotFoundError
  | keyError
  | eofError
  | indexError
  | genericException
  deriving DecidableEq, Repr

/-- A raised Python exception: its class and its `str(e)` text. -/
structure Exc where
  kind : ExcKind
  msg : String
  deriving DecidableEq, Repr

/-- A single-row dataframe: ordered column names with the row's values. -/
abbrev Row (V : Type) : Type := List (String × V)

/-- A fitted scaler as loaded from disk: `scaler.transform` on a one-row
dataframe, which may raise (e.g. `ValueError` on shape mismatch). -/
def Scaler (V : Type) : Type := Row V → Except Exc (List V)

/-- A fitted model as loaded from disk: `model.predict` on the scaled row,
returning an array of predictions, and possibly raising. -/
def Model (V : Type) : Type := List V → Except Exc (List V)

/-- The environment a predictor call runs against: `os.path.exists` and
`joblib.load`, the latter split by the (typed) artifact each path holds. -/
structure PyEnv (V : Type) where
  pathExists : String → Bool
  loadNames : String → Except Exc (List String)
  loadScaler : String → Except Exc (Scaler V)
  loadModel : String → Except Exc (Model V)

/-- The six named inputs of either predictor, in parameter order. -/
structure Inputs (V : Type) where
  preDefectCount : V
  preClosedDefectCount : V
  preResolvedDefectCount : V
  preTrialDefectCount : V
  preClosedTrialDefectCount : V
  preResolvedTrialDefectCount : V

variable {V : Type}

/-- The `input_data` dict of the source, as an ordered association list
(Python dicts preserve insertion order, which fixes the column order of
`pd.DataFrame([input_data])`). -/
def input_data (i : Inputs V) : Row V :=
  [("上市前缺陷数", i.preDefectCount),
   ("上市前已关闭缺陷数", i.preClosedDefectCount),
   ("上市前已解决缺陷数", i.preResolvedDefectCount),
   ("上市前试用缺陷数", i.preTrialDefectCount),
   ("上市前已关闭试用缺陷数", i.preClosedTrialDefectCount),
   ("上市前已解决试用缺陷数", i.preResolvedTrialDefectCount)]

/-- The six recognized feature names, i.e. the keys of `input_data`. -/
def featureKeys : List String :=
  ["上市前缺陷数", "上市前已关闭缺陷数", "上市前已解决缺陷数",
   "上市前试用缺陷数", "上市前已关闭试用缺陷数", "上市前已解决试用缺陷数"]

/-- Column lookup in a one-row dataframe (first matching column). -/
def lookupCol (row : Row V) (n : String) : Option V :=
  (row.find? (fun p => p.1 == n)).map Prod.snd

/-- Selection `df[feature_names]` when every requested column exists: the
selected columns in the requested order; `none` if any column is missing. -/
def selectColumns? (row : Row V) : List String → Option (Row V)
  | [] => some []
  | n :: ns =>
    match lookupCol row n, selectColumns? row ns with
    | some v, some r => some ((n, v) :: r)
    | _, _ => none

/-- Pandas column selection `df[feature_names]`, raising `KeyError` when a
requested column is not among the dataframe's columns. -/
def selectColumns (row : Row V) (names : List String) : Except Exc (Row V) :=
  match selectColumns? row names with
  | some r => Except.ok r
  | none => Except.error ⟨ExcKind.keyError, "not in index"⟩

/-- The shared body of the two predictors, parameterized by the artifact
directory and the model file's base name.  Returns the outcome and the
list of paths passed to `joblib.load`, in call order. -/
def predictGeneric (env : PyEnv V) (dir modelFile : String) (i : Inputs V) :
    Except Exc V × List String :=
  if env.pathExists dir then
    let p1 := dir ++ "/feature_names.joblib"
    match env.loadNames p1 with
    | Except.error e =>
      (Except.error ⟨ExcKind.genericException, "加载模型时出错: " ++ e.msg⟩, [p1])
    | Except.ok feature_names =>
      let p2 := dir ++ "/scaler.joblib"
      match env.loadScaler p2 with
      | Except.error e =>
        (Except.error ⟨ExcKind.genericException, "加载模型时出错: " ++ e.msg⟩, [p1, p2])
      | Except.ok scaler =>
        let p3 := dir ++ "/" ++ modelFile ++ ".joblib"
        match env.loadModel p3 with
        | Except.error e =>
          (Except.error ⟨ExcKind.genericException, "加载模型时出错: " ++ e.msg⟩, [p1, p2, p3])
        | Except.ok model =>
          let res : Except Exc V :=
            match selectColumns (input_data i) feature_names with
            | Except.error e => Except.error e
            | Except.ok df =>
              match scaler df with
              | Except.error e => Except.error e
              | Except.ok scaled =>
                match model scaled with
                | Except.error e => Except.error e
                | Except.ok preds =>
                  match preds with
                  | [] => Except.error ⟨ExcKind.indexError, "index 0 is out of bounds"⟩
                  | v :: _ => Except.ok v
          (res, [p1, p2, p3])
  else
    (Except.error ⟨ExcKind.fileNotFoundError, "找不到" ++ dir ++ "目录，请先运行训练脚本"⟩, [])

/-- Transcription of `predict_nps_with_rf`, the random-forest predictor. -/
def predict_nps_with_rf (env : PyEnv V) (i : Inputs V) :
    Except Exc V × List String :=
  if env.pathExists "models" then
    match env.loadNames "models/feature_names.joblib" with
    | Except.error e =>
      (Except.error ⟨ExcKind.genericException, "加载模型时出错: " ++ e.msg⟩,
       ["models/feature_names.joblib"])
    | Except.ok feature_names =>
      match env.loadScaler "models/scaler.joblib" with
      | Except.error e =>
        (Except.error ⟨ExcKind.genericException, "加载模型时出错: " ++ e.msg⟩,
         ["models/feature_names.joblib", "models/scaler.joblib"])
      | Except.ok scaler =>
        match env.loadModel "models/random_forest.joblib" with
        | Except.error e =>
          (Except.error ⟨ExcKind.genericException, "加载模型时出错: " ++ e.msg⟩,
           ["models/feature_names.joblib", "models/scaler.joblib",
            "models/random_forest.joblib"])
        | Except.ok rf_model =>
          let res : Except Exc V :=
            match selectColumns (input_data i) feature_names with
            | Except.error e => Except.error e
            | Except.ok df =>
              match scaler df with
              | Except.error e => Except.error e
              | Except.ok scaled_data =>
                match rf_model scaled_data with
                | Except.error e => Except.error e
                | Except.ok preds =>
                  match preds with
                  | [] => Except.error ⟨ExcKind.indexError, "index 0 is out of bounds"⟩
                  | v :: _ => Except.ok v
          (res, ["models/feature_names.joblib", "models/scaler.joblib",
                 "models/random_forest.joblib"])
  else
    (Except.error ⟨ExcKind.fileNotFoundError, "找不到models目录，请先运行训练脚本"⟩, [])

/-- Transcription of `predict_nps_with_skynet`, the gradient-boosting
predictor. -/
def predict_nps_with_skynet (env : PyEnv V) (i : Inputs V) :
    Except Exc V × List String :=
  if env.pathExists "skynet_model" then
    match env.loadNames "skynet_model/feature_names.joblib" with
    | Except.error e =>
      (Except.error ⟨ExcKind.genericException, "加载模型时出错: " ++ e.msg⟩,
       ["skynet_model/feature_names.joblib"])
    | Except.ok feature_names =>
      match env.loadScaler "skynet_model/scaler.joblib" with
      | Except.error e =>
        (Except.error ⟨ExcKind.genericException, "加载模型时出错: " ++ e.msg⟩,
         ["skynet_model/feature_names.joblib", "skynet_model/scaler.joblib"])
      | Except.ok scaler =>
        match env.loadModel "skynet_model/gradient_boosting.joblib" with
        | Except.error e =>
          (Except.error ⟨ExcKind.genericException, "加载模型时出错: " ++ e.msg⟩,
           ["skynet_model/feature_names.joblib", "skynet_model/scaler.joblib",
            "skynet_model/gradient_boosting.joblib"])
        | Except.ok skynet_model =>
          let res : Except Exc V :=
            match selectColumns (input_data i) feature_names with
            | Except.error e => Except.error e
            | Except.ok df =>
              match scaler df with
              | Except.error e => Except.error e
              | Except.ok scaled_data =>
                match skynet_model scaled_data with
                | Except.error e => Except.error e
                | Except.ok preds =>
                  match preds with
                  | [] => Except.error ⟨ExcKind.indexError, "index 0 is out of bounds"⟩
                  | v :: _ => Except.ok v
          (res, ["skynet_model/feature_names.joblib", "skynet_model/scaler.joblib",
                 "skynet_model/gradient_boosting.joblib"])
  else
    (Except.error ⟨ExcKind.fileNotFoundError, "找不到skynet_model目录，请先运行训练脚本"⟩, [])

/-- The environment `main` runs against: the predictor environment plus the
two external library operations `main` uses on values — `float(...)` (which
raises `ValueError` on unparsable text) and the 2-decimal float formatting
used in the result line. -/
structure MainEnv (V : Type) where
  py : PyEnv V
  parseFloat : String → Except Exc V
  format2f : V → String

/-- Models `float(input(prompt))` on the remaining console lines: `input`
raises `EOFError` when the stream is exhausted, otherwise the line is
parsed. -/
def getFloat (parse : String → Except Exc V) (stdin : List String) :
    Except Exc (V × List String) :=
  match stdin with
  | [] => Except.error ⟨ExcKind.eofError, "EOF when reading a line"⟩
  | l :: ls =>
    match parse l with
    | Except.error e => Except.error e
    | Except.ok v => Except.ok (v, ls)

/-- The six `input(...)` prompt strings, in the order `main` issues them. -/
def promptList : List String :=
  ["上市前缺陷数: ", "上市前已关闭缺陷数: ", "上市前已解决缺陷数: ",
   "上市前试用缺陷数: ", "上市前已关闭试用缺陷数: ", "上市前已解决试用缺陷数: "]

/-- The body of `main`'s `try` block: read and parse the six inputs in
order, then call `predict_nps_with_rf`.  Returns the outcome (value or the
exception that escaped the `try` body), the prompts printed so far, and the
artifact files read. -/
def sessionResult (env : MainEnv V) (stdin : List String) :
    Except Exc V × List String × List String :=
  match getFloat env.parseFloat stdin with
  | Except.error e => (Except.error e, promptList.take 1, [])
  | Except.ok (preDefectCount, s1) =>
    match getFloat env.parseFloat s1 with
    | Except.error e => (Except.error e, promptList.take 2, [])
    | Except.ok (preClosedDefectCount, s2) =>
      match getFloat env.parseFloat s2 with
      | Except.error e => (Except.error e, promptList.take 3, [])
      | Except.ok (preResolvedDefectCount, s3) =>
        match getFloat env.parseFloat s3 with
        | Except.error e => (Except.error e, promptList.take 4, [])
        | Except.ok (preTrialDefectCount, s4) =>
          match getFloat env.parseFloat s4 with
          | Except.error e => (Except.error e, promptList.take 5, [])
          | Except.ok (preClosedTrialDefectCount, s5) =>
            match getFloat env.parseFloat s5 with
            | Except.error e => (Except.error e, promptList.take 6, [])
            | Except.ok (preResolvedTrialDefectCount, _s6) =>
              let r := predict_nps_with_rf env.py
                ⟨preDefectCount, preClosedDefectCount, preResolvedDefectCount,
                 preTrialDefectCount, preClosedTrialDefectCount,
                 preResolvedTrialDefectCount⟩
              (r.1, promptList.take 6, r.2)

/-- The 50-character banner line of repeated equal signs. -/
def eq50 : String := String.mk (List.replicate 50 '=')

/-- The banner `main` prints before its `try` block. -/
def header : List String :=
  [eq50, "NPS 打分预测工具 (Random Forest版)", eq50, "\n请输入缺陷指标:"]

/-- The user-facing message of the `except ValueError` handler. -/
def invalidNumberMsg : String := "请输入有效的数字"

/-- What `main`'s two exception handlers print for an escaped exception:
`except ValueError` matches first, `except Exception` catches the rest. -/
def reportLine (e : Exc) : String :=
  match e.kind with
  | ExcKind.valueError => invalidNumberMsg
  | _ => "预测过程中出错: " ++ e.msg

/-- The fixed text preceding the formatted prediction in the result line. -/
def resultLinePre : String := "使用 Random Forest 模型预测的 NPS 打分: "

/-- Transcription of `main`, the interactive entry point.  Returns the full list of printed
strings (banner, prompts, then either the framed result or an error
message) and the list of artifact files read.  It is a total function: all
exceptions raised inside the `try` block are consumed by the handlers. -/
def main (env : MainEnv V) (stdin : List String) : List String × List String :=
  let s := sessionResult env stdin
  match s.1 with
  | Except.ok prediction =>
    (header ++ s.2.1 ++
      ["\n" ++ eq50, resultLinePre ++ env.format2f prediction, eq50], s.2.2)
  | Except.error e => (header ++ s.2.1 ++ [reportLine e], s.2.2)

/-! ### Helper lemmas -/

/-- The three artifact paths of the random-forest flavor, in load order. -/
def rfPaths : List String :=
  ["models/feature_names.joblib", "models/scaler.joblib", "models/random_forest.joblib"]

/-- The three artifact paths of the skynet flavor, in load order. -/
def skynetPaths : List String :=
  ["skynet_model/feature_names.joblib", "skynet_model/scaler.joblib",
   "skynet_model/gradient_boosting.joblib"]

/-! ### Concrete environments used by the witnesses -/

/-- A concrete environment over `V := Int` whose artifacts all load: the
feature list is a reordering of two of the six names, the scaler keeps the
row's values, the model appends a constant. -/
def envA : PyEnv Int where
  pathExists := fun _ => true
  loadNames := fun _ => Except.ok ["上市前试用缺陷数", "上市前缺陷数"]
  loadScaler := fun _ => Except.ok (fun row => Except.ok (row.map Prod.snd))
  loadModel := fun _ => Except.ok (fun xs => Except.ok (xs ++ [7]))

/-- Concrete inputs 1..6 over `Int`. -/
def inpA : Inputs Int := ⟨1, 2, 3, 4, 5, 6⟩

/-- An environment on an empty filesystem: no directory exists, every load
fails. -/
def envNone : PyEnv Int where
  pathExists := fun _ => false
  loadNames := fun _ => Except.error ⟨ExcKind.fileNotFoundError, "no file"⟩
  loadScaler := fun _ => Except.error ⟨ExcKind.fileNotFoundError, "no file"⟩
  loadModel := fun _ => Except.error ⟨ExcKind.fileNotFoundError, "no file"⟩

/-- An environment whose feature-name artifact holds a name that is not
among the six recognized input names. -/
def envBad : PyEnv Int where
  pathExists := fun _ => true
  loadNames := fun _ => Except.ok ["不存在的特征"]
  loadScaler := fun _ => Except.ok (fun row => Except.ok (row.map Prod.snd))
  loadModel := fun _ => Except.ok (fun xs => Except.ok (xs ++ [7]))

/-- Copy of `envA` with the skynet directory removed; the rf directory is
untouched. -/
def envA' : PyEnv Int :=
  { envA with pathExists := fun s => s == "models" }

/-- An environment whose scaler artifact is corrupt: the directory exists,
the feature-name list loads, the scaler deserialization fails. -/
def envC : PyEnv Int where
  pathExists := fun _ => true
  loadNames := fun _ => Except.ok featureKeys
  loadScaler := fun _ => Except.error ⟨ExcKind.genericException, "corrupt"⟩
  loadModel := fun _ => Except.ok (fun xs => Except.ok xs)

/-- A stand-in for Python's `float(...)` on the witness inputs: parses
decimal digit strings, raises `ValueError` otherwise. -/
def parseSix (s : String) : Except Exc Int :=
  match s with
  | "1" => Except.ok 1
  | "2" => Except.ok 2
  | "3" => Except.ok 3
  | "4" => Except.ok 4
  | "5" => Except.ok 5
  | "6" => Except.ok 6
  | _ => Except.error ⟨ExcKind.valueError, "could not convert string to float: " ++ s⟩

/-- A concrete `main` environment over `envA`'s filesystem. -/
def envM : MainEnv Int where
  py := envA
  parseFloat := parseSix
  format2f := fun v => toString v

/-! ### Theorems -/

theorem rf_eq_generic (env : PyEnv V) (i : Inputs V) :
    predict_nps_with_rf env i = predictGeneric env "models" "random_forest" i := rfl

theorem skynet_eq_generic (env : PyEnv V) (i : Inputs V) :
    predict_nps_with_skynet env i = predictGeneric env "skynet_model" "gradient_boosting" i := rfl

theorem lookupCol_eq_none_of_not_mem (row : Row V) (n : String)
    (h : n ∉ row.map Prod.fst) : lookupCol row n = none := by
  unfold lookupCol
  rw [List.find?_eq_none.mpr]
  · rfl
  · intro p hp hb
    exact h (List.mem_map.mpr ⟨p, hp, by simpa using hb⟩)

theorem input_data_keys (i : Inputs V) :
    (input_data i).map Prod.fst = featureKeys := rfl

theorem lookupCol_input_data_of_not_mem (i : Inputs V) (n : String)
    (h : n ∉ featureKeys) : lookupCol (input_data i) n = none :=
  lookupCol_eq_none_of_not_mem (input_data i) n (by rwa [input_data_keys])

theorem lookupCol_input_data_isSome (i : Inputs V) (n : String)
    (h : n ∈ featureKeys) : ∃ v, lookupCol (input_data i) n = some v := by
  simp only [featureKeys, List.mem_cons, List.mem_singleton, List.not_mem_nil, or_false]
    at h
  rcases h with h | h | h | h | h | h <;> subst h <;> exact ⟨_, rfl⟩

theorem selectColumns?_eq_none (row : Row V) (ns : List String) (n : String)
    (hn : n ∈ ns) (hl : lookupCol row n = none) : selectColumns? row ns = none := by
  induction ns with
  | nil => cases hn
  | cons m ms ih =>
    rcases List.mem_cons.mp hn with h | h
    · subst h
      simp [selectColumns?, hl]
    · unfold selectColumns?
      rw [ih h]
      cases lookupCol row m <;> rfl

theorem selectColumns?_isSome (row : Row V) (ns : List String)
    (h : ∀ n ∈ ns, ∃ v, lookupCol row n = some v) :
    ∃ r, selectColumns? row ns = some r := by
  induction ns with
  | nil => exact ⟨[], rfl⟩
  | cons m ms ih =>
    obtain ⟨v, hv⟩ := h m (List.mem_cons_self m ms)
    obtain ⟨r, hr⟩ := ih (fun n hn => h n (List.mem_cons_of_mem m hn))
    exact ⟨(m, v) :: r, by simp [selectColumns?, hv, hr]⟩

theorem selectColumns?_spec (row : Row V) (ns : List String) (r : Row V)
    (h : selectColumns? row ns = some r) :
    r.map Prod.fst = ns ∧ ∀ p ∈ r, lookupCol row p.1 = some p.2 := by
  induction ns generalizing r with
  | nil =>
    simp only [selectColumns?, Option.some.injEq] at h
    subst h
    simp
  | cons m ms ih =>
    unfold selectColumns? at h
    rcases hv : lookupCol row m with _ | v <;> rw [hv] at h
    · cases h
    · rcases hr : selectColumns? row ms with _ | r0 <;> rw [hr] at h
      · cases h
      · obtain ⟨h1, h2⟩ := ih r0 hr
        cases h
        refine ⟨by simp [h1], ?_⟩
        intro p hp
        rcases List.mem_cons.mp hp with h | h
        · subst h; exact hv
        · exact h2 p h

theorem selectColumns?_congr (r1 r2 : Row V) (ns : List String)
    (h : ∀ n, lookupCol r1 n = lookupCol r2 n) :
    selectColumns? r1 ns = selectColumns? r2 ns := by
  induction ns with
  | nil => rfl
  | cons m ms ih => unfold selectColumns?; rw [h m, ih]

/-! ### Claims -/

/-- C1.  When the artifacts load successfully and every stage of the
pipeline succeeds, each predictor returns exactly the first element of the
model's predict output on the scaler's transform of the assembled row —
no rounding or clamping is applied. -/
theorem claim1_raw_pipeline_output :
    (∀ (V : Type) (env : PyEnv V) (i : Inputs V) (fn : List String)
       (sc : Scaler V) (mdl : Model V) (df : Row V) (scaled : List V)
       (v : V) (rest : List V),
       env.pathExists "models" = true →
       env.loadNames "models/feature_names.joblib" = Except.ok fn →
       env.loadScaler "models/scaler.joblib" = Except.ok sc →
       env.loadModel "models/random_forest.joblib" = Except.ok mdl →
       selectColumns (input_data i) fn = Except.ok df →
       sc df = Except.ok scaled →
       mdl scaled = Except.ok (v :: rest) →
       (predict_nps_with_rf env i).1 = Except.ok v) ∧
    (∀ (V : Type) (env : PyEnv V) (i : Inputs V) (fn : List String)
       (sc : Scaler V) (mdl : Model V) (df : Row V) (scaled : List V)
       (v : V) (rest : List V),
       env.pathExists "skynet_model" = true →
       env.loadNames "skynet_model/feature_names.joblib" = Except.ok fn →
       env.loadScaler "skynet_model/scaler.joblib" = Except.ok sc →
       env.loadModel "skynet_model/gradient_boosting.joblib" = Except.ok mdl →
       selectColumns (input_data i) fn = Except.ok df →
       sc df = Except.ok scaled →
       mdl scaled = Except.ok (v :: rest) →
       (predict_nps_with_skynet env i).1 = Except.ok v) := by
  constructor
  · intro V env i fn sc mdl df scaled v rest h0 h1 h2 h3 h4 h5 h6
    simp [predict_nps_with_rf, h0, h1, h2, h3, h4, h5, h6]
  · intro V env i fn sc mdl df scaled v rest h0 h1 h2 h3 h4 h5 h6
    simp [predict_nps_with_skynet, h0, h1, h2, h3, h4, h5, h6]

theorem claim1_raw_pipeline_output_witness :
    (predict_nps_with_rf envA inpA).1 = Except.ok 4 :=
  claim1_raw_pipeline_output.1 Int envA inpA
    ["上市前试用缺陷数", "上市前缺陷数"]
    (fun row => Except.ok (row.map Prod.snd))
    (fun xs => Except.ok (xs ++ [7]))
    [("上市前试用缺陷数", 4), ("上市前缺陷数", 1)] [4, 1] 4 [1, 7]
    rfl rfl rfl rfl rfl rfl rfl

/-- C4.  If a predictor's artifact directory does not exist, it fails at
once with the `FileNotFoundError` whose message names that directory, and
the list of files passed to `joblib.load` is empty: nothing is read. -/
theorem claim4_missing_directory :
    ∀ (V : Type) (env : PyEnv V) (i : Inputs V),
      (env.pathExists "models" = false →
        predict_nps_with_rf env i =
          (Except.error ⟨ExcKind.fileNotFoundError, "找不到models目录，请先运行训练脚本"⟩, [])) ∧
      (env.pathExists "skynet_model" = false →
        predict_nps_with_skynet env i =
          (Except.error ⟨ExcKind.fileNotFoundError, "找不到skynet_model目录，请先运行训练脚本"⟩, [])) := by
  intro V env i
  constructor
  · intro h
    simp [predict_nps_with_rf, h]
  · intro h
    simp [predict_nps_with_skynet, h]

theorem claim4_missing_directory_witness :
    predict_nps_with_rf envNone inpA =
      (Except.error ⟨ExcKind.fileNotFoundError, "找不到models目录，请先运行训练脚本"⟩, []) :=
  (claim4_missing_directory Int envNone inpA).1 rfl

/-- C2.  When every name in the loaded feature-name list is among the six
recognized feature names, `df[feature_names]` succeeds; the assembled row's
columns are exactly the feature-name list in its order, each column holding
the value bound to that name, and the selection depends only on the
name-to-value binding of the input row (supply order is irrelevant).  The
six trailing equations pin each recognized name to its named input. -/
theorem claim2_assembly_order :
    ∀ (V : Type) (i : Inputs V) (fn : List String),
      (∀ n ∈ fn, n ∈ featureKeys) →
      (∃ r : Row V, selectColumns (input_data i) fn = Except.ok r ∧
        r.map Prod.fst = fn ∧
        (∀ p ∈ r, lookupCol (input_data i) p.1 = some p.2) ∧
        (∀ row : Row V, (∀ n, lookupCol row n = lookupCol (input_data i) n) →
          selectColumns row fn = Except.ok r)) ∧
      lookupCol (input_data i) "上市前缺陷数" = some i.preDefectCount ∧
      lookupCol (input_data i) "上市前已关闭缺陷数" = some i.preClosedDefectCount ∧
      lookupCol (input_data i) "上市前已解决缺陷数" = some i.preResolvedDefectCount ∧
      lookupCol (input_data i) "上市前试用缺陷数" = some i.preTrialDefectCount ∧
      lookupCol (input_data i) "上市前已关闭试用缺陷数" = some i.preClosedTrialDefectCount ∧
      lookupCol (input_data i) "上市前已解决试用缺陷数" = some i.preResolvedTrialDefectCount := by
  intro V i fn hfn
  refine ⟨?_, rfl, rfl, rfl, rfl, rfl, rfl⟩
  obtain ⟨r, hr⟩ := selectColumns?_isSome (input_data i) fn
    (fun n hn => lookupCol_input_data_isSome i n (hfn n hn))
  obtain ⟨h1, h2⟩ := selectColumns?_spec (input_data i) fn r hr
  refine ⟨r, by simp [selectColumns, hr], h1, h2, ?_⟩
  intro row hrow
  rw [selectColumns, selectColumns?_congr row (input_data i) fn hrow, hr]

theorem claim2_assembly_order_witness :
    (∀ n ∈ (["上市前已解决缺陷数", "上市前缺陷数"] : List String), n ∈ featureKeys) ∧
    ∃ r : Row Int,
      selectColumns (input_data inpA) ["上市前已解决缺陷数", "上市前缺陷数"] = Except.ok r ∧
      r.map Prod.fst = ["上市前已解决缺陷数", "上市前缺陷数"] :=
  ⟨by decide, by
    obtain ⟨⟨r, h1, h2, _⟩, _⟩ :=
      claim2_assembly_order Int inpA ["上市前已解决缺陷数", "上市前缺陷数"] (by decide)
    exact ⟨r, h1, h2⟩⟩

/-- C3.  If the loaded feature-name list contains a name that is not among
the six recognized input names, column selection raises `KeyError` (no
table with a missing or null column is produced), and — whatever scaler and
model loaded — either predictor's outcome is that error, so no prediction
is produced. -/
theorem claim3_feature_mismatch :
    ∀ (V : Type) (env : PyEnv V) (i : Inputs V) (fn : List String) (n : String),
      n ∈ fn → n ∉ featureKeys →
      selectColumns (input_data i) fn = Except.error ⟨ExcKind.keyError, "not in index"⟩ ∧
      (∀ (sc : Scaler V) (mdl : Model V),
        env.pathExists "models" = true →
        env.loadNames "models/feature_names.joblib" = Except.ok fn →
        env.loadScaler "models/scaler.joblib" = Except.ok sc →
        env.loadModel "models/random_forest.joblib" = Except.ok mdl →
        (predict_nps_with_rf env i).1 = Except.error ⟨ExcKind.keyError, "not in index"⟩) ∧
      (∀ (sc : Scaler V) (mdl : Model V),
        env.pathExists "skynet_model" = true →
        env.loadNames "skynet_model/feature_names.joblib" = Except.ok fn →
        env.loadScaler "skynet_model/scaler.joblib" = Except.ok sc →
        env.loadModel "skynet_model/gradient_boosting.joblib" = Except.ok mdl →
        (predict_nps_with_skynet env i).1 = Except.error ⟨ExcKind.keyError, "not in index"⟩) := by
  intro V env i fn n hn hnot
  have hnone : selectColumns? (input_data i) fn = none :=
    selectColumns?_eq_none (input_data i) fn n hn
      (lookupCol_input_data_of_not_mem i n hnot)
  have hsel : selectColumns (input_data i) fn =
      Except.error ⟨ExcKind.keyError, "not in index"⟩ := by
    simp [selectColumns, hnone]
  refine ⟨hsel, ?_, ?_⟩
  · intro sc mdl h0 h1 h2 h3
    simp [predict_nps_with_rf, h0, h1, h2, h3, hsel]
  · intro sc mdl h0 h1 h2 h3
    simp [predict_nps_with_skynet, h0, h1, h2, h3, hsel]

theorem claim3_feature_mismatch_witness :
    ("不存在的特征" ∈ (["不存在的特征"] : List String)) ∧
    ("不存在的特征" ∉ featureKeys) ∧
    (predict_nps_with_rf envBad inpA).1 = Except.error ⟨ExcKind.keyError, "not in index"⟩ :=
  ⟨by decide, by decide, by
    obtain ⟨_, h2, _⟩ :=
      claim3_feature_mismatch Int envBad inpA ["不存在的特征"] "不存在的特征"
        (by decide) (by decide)
    exact h2 (fun row => Except.ok (row.map Prod.snd)) (fun xs => Except.ok (xs ++ [7]))
      rfl rfl rfl rfl⟩

/-- C9.  Both predictors are instances of one shared body, differing only
in artifact directory and model-file name; and each flavor's outcome
depends only on the filesystem state at its own directory: two
environments that agree on the flavor's directory (existence and the three
artifact paths under it) give identical outcomes, whatever the other
flavor's directory holds. -/
theorem claim9_shared_body_and_independence :
    (∀ (V : Type) (env : PyEnv V) (i : Inputs V),
       predict_nps_with_rf env i = predictGeneric env "models" "random_forest" i) ∧
    (∀ (V : Type) (env : PyEnv V) (i : Inputs V),
       predict_nps_with_skynet env i = predictGeneric env "skynet_model" "gradient_boosting" i) ∧
    (∀ (V : Type) (env1 env2 : PyEnv V) (i : Inputs V),
       env1.pathExists "models" = env2.pathExists "models" →
       (∀ p ∈ rfPaths, env1.loadNames p = env2.loadNames p ∧
          env1.loadScaler p = env2.loadScaler p ∧ env1.loadModel p = env2.loadModel p) →
       predict_nps_with_rf env1 i = predict_nps_with_rf env2 i) ∧
    (∀ (V : Type) (env1 env2 : PyEnv V) (i : Inputs V),
       env1.pathExists "skynet_model" = env2.pathExists "skynet_model" →
       (∀ p ∈ skynetPaths, env1.loadNames p = env2.loadNames p ∧
          env1.loadScaler p = env2.loadScaler p ∧ env1.loadModel p = env2.loadModel p) →
       predict_nps_with_skynet env1 i = predict_nps_with_skynet env2 i) := by
  refine ⟨fun V env i => rf_eq_generic env i, fun V env i => skynet_eq_generic env i, ?_, ?_⟩
  · intro V env1 env2 i hex hld
    have hn := (hld "models/feature_names.joblib" (by simp [rfPaths])).1
    have hs := (hld "models/scaler.joblib" (by simp [rfPaths])).2.1
    have hm := (hld "models/random_forest.joblib" (by simp [rfPaths])).2.2
    simp only [predict_nps_with_rf, hex, hn, hs, hm]
  · intro V env1 env2 i hex hld
    have hn := (hld "skynet_model/feature_names.joblib" (by simp [skynetPaths])).1
    have hs := (hld "skynet_model/scaler.joblib" (by simp [skynetPaths])).2.1
    have hm := (hld "skynet_model/gradient_boosting.joblib" (by simp [skynetPaths])).2.2
    simp only [predict_nps_with_skynet, hex, hn, hs, hm]

theorem claim9_shared_body_and_independence_witness :
    predict_nps_with_rf envA inpA = predict_nps_with_rf envA' inpA :=
  claim9_shared_body_and_independence.2.2.1 Int envA envA' inpA rfl
    (fun _ _ => ⟨rfl, rfl, rfl⟩)

/-- C5.  When the artifact directory exists, the files passed to
`joblib.load` are always an initial segment of the fixed sequence
feature-name list, scaler, model (in that order); and whichever of the
three deserializations fails first, the predictor fails with the wrapped
`加载模型时出错: ...` error carrying the underlying cause's text, having
read exactly the files up to and including the failing one. -/
theorem claim5_load_sequence_and_wrapping :
    ∀ (V : Type) (env : PyEnv V) (i : Inputs V),
      (env.pathExists "models" = true →
        ((predict_nps_with_rf env i).2 = rfPaths.take 1 ∨
         (predict_nps_with_rf env i).2 = rfPaths.take 2 ∨
         (predict_nps_with_rf env i).2 = rfPaths) ∧
        (∀ e, env.loadNames "models/feature_names.joblib" = Except.error e →
          predict_nps_with_rf env i =
            (Except.error ⟨ExcKind.genericException, "加载模型时出错: " ++ e.msg⟩,
             rfPaths.take 1)) ∧
        (∀ fn e, env.loadNames "models/feature_names.joblib" = Except.ok fn →
          env.loadScaler "models/scaler.joblib" = Except.error e →
          predict_nps_with_rf env i =
            (Except.error ⟨ExcKind.genericException, "加载模型时出错: " ++ e.msg⟩,
             rfPaths.take 2)) ∧
        (∀ fn sc e, env.loadNames "models/feature_names.joblib" = Except.ok fn →
          env.loadScaler "models/scaler.joblib" = Except.ok sc →
          env.loadModel "models/random_forest.joblib" = Except.error e →
          predict_nps_with_rf env i =
            (Except.error ⟨ExcKind.genericException, "加载模型时出错: " ++ e.msg⟩,
             rfPaths))) ∧
      (env.pathExists "skynet_model" = true →
        ((predict_nps_with_skynet env i).2 = skynetPaths.take 1 ∨
         (predict_nps_with_skynet env i).2 = skynetPaths.take 2 ∨
         (predict_nps_with_skynet env i).2 = skynetPaths) ∧
        (∀ e, env.loadNames "skynet_model/feature_names.joblib" = Except.error e →
          predict_nps_with_skynet env i =
            (Except.error ⟨ExcKind.genericException, "加载模型时出错: " ++ e.msg⟩,
             skynetPaths.take 1)) ∧
        (∀ fn e, env.loadNames "skynet_model/feature_names.joblib" = Except.ok fn →
          env.loadScaler "skynet_model/scaler.joblib" = Except.error e →
          predict_nps_with_skynet env i =
            (Except.error ⟨ExcKind.genericException, "加载模型时出错: " ++ e.msg⟩,
             skynetPaths.take 2)) ∧
        (∀ fn sc e, env.loadNames "skynet_model/feature_names.joblib" = Except.ok fn →
          env.loadScaler "skynet_model/scaler.joblib" = Except.ok sc →
          env.loadModel "skynet_model/gradient_boosting.joblib" = Except.error e →
          predict_nps_with_skynet env i =
            (Except.error ⟨ExcKind.genericException, "加载模型时出错: " ++ e.msg⟩,
             skynetPaths))) := by
  intro V env i
  constructor
  · intro h0
    refine ⟨?_, ?_, ?_, ?_⟩
    · cases h1 : env.loadNames "models/feature_names.joblib" with
      | error e => simp [predict_nps_with_rf, h0, h1, rfPaths]
      | ok fn =>
        cases h2 : env.loadScaler "models/scaler.joblib" with
        | error e => simp [predict_nps_with_rf, h0, h1, h2, rfPaths]
        | ok sc =>
          cases h3 : env.loadModel "models/random_forest.joblib" with
          | error e => simp [predict_nps_with_rf, h0, h1, h2, h3, rfPaths]
          | ok mdl => simp [predict_nps_with_rf, h0, h1, h2, h3, rfPaths]
    · intro e h1
      simp [predict_nps_with_rf, h0, h1, rfPaths]
    · intro fn e h1 h2
      simp [predict_nps_with_rf, h0, h1, h2, rfPaths]
    · intro fn sc e h1 h2 h3
      simp [predict_nps_with_rf, h0, h1, h2, h3, rfPaths]
  · intro h0
    refine ⟨?_, ?_, ?_, ?_⟩
    · cases h1 : env.loadNames "skynet_model/feature_names.joblib" with
      | error e => simp [predict_nps_with_skynet, h0, h1, skynetPaths]
      | ok fn =>
        cases h2 : env.loadScaler "skynet_model/scaler.joblib" with
        | error e => simp [predict_nps_with_skynet, h0, h1, h2, skynetPaths]
        | ok sc =>
          cases h3 : env.loadModel "skynet_model/gradient_boosting.joblib" with
          | error e => simp [predict_nps_with_skynet, h0, h1, h2, h3, skynetPaths]
          | ok mdl => simp [predict_nps_with_skynet, h0, h1, h2, h3, skynetPaths]
    · intro e h1
      simp [predict_nps_with_skynet, h0, h1, skynetPaths]
    · intro fn e h1 h2
      simp [predict_nps_with_skynet, h0, h1, h2, skynetPaths]
    · intro fn sc e h1 h2 h3
      simp [predict_nps_with_skynet, h0, h1, h2, h3, skynetPaths]

theorem claim5_load_sequence_and_wrapping_witness :
    predict_nps_with_rf envC inpA =
      (Except.error ⟨ExcKind.genericException, "加载模型时出错: corrupt"⟩,
       rfPaths.take 2) :=
  ((claim5_load_sequence_and_wrapping Int envC inpA).1 rfl).2.2.1 featureKeys
    ⟨ExcKind.genericException, "corrupt"⟩ rfl rfl

/-- C6.  On console inputs 1 through 6, with `float` parsing them to the six
values v1..v6, the session invokes the random-forest predictor with exactly
those values bound to the six named parameters in order; on success `main`
prints the framed result line carrying the 2-decimal formatting of the
predictor's value. -/
theorem claim6_interactive_happy_path :
    ∀ (V : Type) (env : MainEnv V) (v1 v2 v3 v4 v5 v6 : V),
      env.parseFloat "1" = Except.ok v1 →
      env.parseFloat "2" = Except.ok v2 →
      env.parseFloat "3" = Except.ok v3 →
      env.parseFloat "4" = Except.ok v4 →
      env.parseFloat "5" = Except.ok v5 →
      env.parseFloat "6" = Except.ok v6 →
      sessionResult env ["1", "2", "3", "4", "5", "6"] =
        ((predict_nps_with_rf env.py ⟨v1, v2, v3, v4, v5, v6⟩).1, promptList,
         (predict_nps_with_rf env.py ⟨v1, v2, v3, v4, v5, v6⟩).2) ∧
      (∀ w, (predict_nps_with_rf env.py ⟨v1, v2, v3, v4, v5, v6⟩).1 = Except.ok w →
        (main env ["1", "2", "3", "4", "5", "6"]).1 =
          header ++ promptList ++
            ["\n" ++ eq50, resultLinePre ++ env.format2f w, eq50]) := by
  intro V env v1 v2 v3 v4 v5 v6 h1 h2 h3 h4 h5 h6
  constructor
  · simp [sessionResult, getFloat, h1, h2, h3, h4, h5, h6, promptList]
  · intro w hw
    simp [main, sessionResult, getFloat, h1, h2, h3, h4, h5, h6, hw, promptList]

theorem claim6_interactive_happy_path_witness :
    (envM.parseFloat "1" = Except.ok 1 ∧ envM.parseFloat "6" = Except.ok 6) ∧
    (main envM ["1", "2", "3", "4", "5", "6"]).1 =
      header ++ promptList ++
        ["\n" ++ eq50, resultLinePre ++ envM.format2f 4, eq50] :=
  ⟨⟨rfl, rfl⟩,
    (claim6_interactive_happy_path Int envM 1 2 3 4 5 6
      rfl rfl rfl rfl rfl rfl).2 4 rfl⟩

theorem sessionResult_of_parse_error (env : MainEnv V) (pre rest : List String)
    (b : String) (eb : Exc) (hlen : pre.length ≤ 5)
    (hok : ∀ l ∈ pre, ∃ v, env.parseFloat l = Except.ok v)
    (hb : env.parseFloat b = Except.error eb) :
    sessionResult env (pre ++ b :: rest) =
      (Except.error eb, promptList.take (pre.length + 1), []) := by
  rcases pre with _ | ⟨a1, _ | ⟨a2, _ | ⟨a3, _ | ⟨a4, _ | ⟨a5, _ | ⟨a6, tail⟩⟩⟩⟩⟩⟩
  · simp [sessionResult, getFloat, hb]
  · obtain ⟨w1, hw1⟩ := hok a1 (by simp)
    simp [sessionResult, getFloat, hw1, hb]
  · obtain ⟨w1, hw1⟩ := hok a1 (by simp)
    obtain ⟨w2, hw2⟩ := hok a2 (by simp)
    simp [sessionResult, getFloat, hw1, hw2, hb]
  · obtain ⟨w1, hw1⟩ := hok a1 (by simp)
    obtain ⟨w2, hw2⟩ := hok a2 (by simp)
    obtain ⟨w3, hw3⟩ := hok a3 (by simp)
    simp [sessionResult, getFloat, hw1, hw2, hw3, hb]
  · obtain ⟨w1, hw1⟩ := hok a1 (by simp)
    obtain ⟨w2, hw2⟩ := hok a2 (by simp)
    obtain ⟨w3, hw3⟩ := hok a3 (by simp)
    obtain ⟨w4, hw4⟩ := hok a4 (by simp)
    simp [sessionResult, getFloat, hw1, hw2, hw3, hw4, hb]
  · obtain ⟨w1, hw1⟩ := hok a1 (by simp)
    obtain ⟨w2, hw2⟩ := hok a2 (by simp)
    obtain ⟨w3, hw3⟩ := hok a3 (by simp)
    obtain ⟨w4, hw4⟩ := hok a4 (by simp)
    obtain ⟨w5, hw5⟩ := hok a5 (by simp)
    simp [sessionResult, getFloat, hw1, hw2, hw3, hw4, hw5, hb]
  · simp only [List.length_cons] at hlen
    omega

/-- C7.  If, after any number of well-parsed inputs, a console input fails
to parse as a number (`ValueError`), `main` prints the invalid-number
message, reads no artifact file, and its behavior does not depend on the
predictor environment at all: no prediction call is made. -/
theorem claim7_parse_failure_aborts :
    ∀ (V : Type) (env : MainEnv V) (pre rest : List String) (b : String) (eb : Exc),
      pre.length ≤ 5 →
      (∀ l ∈ pre, ∃ v, env.parseFloat l = Except.ok v) →
      env.parseFloat b = Except.error eb →
      eb.kind = ExcKind.valueError →
      (main env (pre ++ b :: rest)).1 =
        header ++ promptList.take (pre.length + 1) ++ [invalidNumberMsg] ∧
      (main env (pre ++ b :: rest)).2 = [] ∧
      (∀ py' : PyEnv V,
        main { env with py := py' } (pre ++ b :: rest) = main env (pre ++ b :: rest)) := by
  intro V env pre rest b eb hlen hok hb hkind
  have hs := sessionResult_of_parse_error env pre rest b eb hlen hok hb
  refine ⟨?_, ?_, ?_⟩
  · simp [main, hs, reportLine, hkind]
  · simp [main, hs]
  · intro py'
    have hs' := sessionResult_of_parse_error { env with py := py' } pre rest b eb hlen
      hok hb
    simp [main, hs, hs']

theorem claim7_parse_failure_aborts_witness :
    envM.parseFloat "abc" = Except.error ⟨ExcKind.valueError,
      "could not convert string to float: abc"⟩ ∧
    (main envM ["1", "abc", "3", "4", "5", "6"]).1 =
      header ++ promptList.take 2 ++ [invalidNumberMsg] ∧
    (main envM ["1", "abc", "3", "4", "5", "6"]).2 = [] :=
  ⟨rfl, by
    have h := claim7_parse_failure_aborts Int envM ["1"] ["3", "4", "5", "6"] "abc"
      ⟨ExcKind.valueError, "could not convert string to float: abc"⟩
      (by decide) (fun l hl => by
        rcases List.mem_singleton.mp hl with h
        exact ⟨1, by subst h; rfl⟩) rfl rfl
    exact ⟨h.1, h.2.1⟩⟩

/-- C8.  `main` is a total function — every exception escaping the session
(loading, prediction, parsing, console) is caught at top level and turned
into a printed line; no error propagates out. -/
theorem claim8_top_level_catch :
    ∀ (V : Type) (env : MainEnv V) (stdin : List String),
      (∀ e, (sessionResult env stdin).1 = Except.error e →
        (main env stdin).1 = header ++ (sessionResult env stdin).2.1 ++ [reportLine e]) ∧
      ∃ printed reads, main env stdin = (printed, reads) := by
  intro V env stdin
  refine ⟨?_, ⟨(main env stdin).1, (main env stdin).2, rfl⟩⟩
  intro e he
  simp [main, he]

theorem claim8_top_level_catch_witness :
    (sessionResult envM ["x"]).1 =
      Except.error ⟨ExcKind.valueError, "could not convert string to float: x"⟩ ∧
    (main envM ["x"]).1 = header ++ (sessionResult envM ["x"]).2.1 ++
      [reportLine ⟨ExcKind.valueError, "could not convert string to float: x"⟩] :=
  ⟨rfl, (claim8_top_level_catch Int envM ["x"]).1
    ⟨ExcKind.valueError, "could not convert string to float: x"⟩ rfl⟩

theorem invalid_not_mem_take (k : Nat) : invalidNumberMsg ∉ promptList.take k :=
  fun hmem => absurd (List.take_subset k promptList hmem) (by decide)

theorem invalid_not_mem_sessionPrompts (env : MainEnv V) (stdin : List String) :
    invalidNumberMsg ∉ (sessionResult env stdin).2.1 := by
  unfold sessionResult
  repeat' split
  all_goals
    first
    | exact invalid_not_mem_take 1
    | exact invalid_not_mem_take 2
    | exact invalid_not_mem_take 3
    | exact invalid_not_mem_take 4
    | exact invalid_not_mem_take 5
    | exact invalid_not_mem_take 6

theorem result_line_ne_invalid (x : String) :
    resultLinePre ++ x ≠ invalidNumberMsg := by
  intro h
  have hl := congrArg String.length h
  rw [String.length_append] at hl
  have h1 : invalidNumberMsg.length = 8 := by decide
  have h2 : 8 < resultLinePre.length := by decide
  omega

theorem report_ne_invalid :
    ∀ (e : Exc), e.kind ≠ ExcKind.valueError → reportLine e ≠ invalidNumberMsg := by
  rintro ⟨kind, msg⟩ hk h
  have h1 : invalidNumberMsg.length = 8 := by decide
  have h2 : ("预测过程中出错: " : String).length = 9 := by decide
  cases kind
  · exact hk rfl
  all_goals
    simp only [reportLine] at h
    have hl := congrArg String.length h
    rw [String.length_append] at hl
    omega

/-- C10.  The invalid-number message appears in `main`'s output exactly
when the session raised a `ValueError` — whether from parsing a console
input or from anywhere inside prediction (e.g. the scaler's transform),
since the `except ValueError` handler encloses the whole session.  A
`ValueError` escaping prediction is therefore reported with the
invalid-number message, not the generic failure message. -/
theorem claim10_valueError_reporting :
    ∀ (V : Type) (env : MainEnv V) (stdin : List String),
      invalidNumberMsg ∈ (main env stdin).1 ↔
        ∃ e, (sessionResult env stdin).1 = Except.error e ∧
          e.kind = ExcKind.valueError := by
  intro V env stdin
  constructor
  · intro hmem
    cases hout : (sessionResult env stdin).1 with
    | ok v =>
      exfalso
      simp only [main, hout, List.mem_append, List.mem_cons, List.not_mem_nil,
        or_false] at hmem
      rcases hmem with (h | h) | (h | h | h)
      · exact absurd h (by decide)
      · exact invalid_not_mem_sessionPrompts env stdin h
      · exact absurd h.symm (by decide)
      · exact result_line_ne_invalid (env.format2f v) h.symm
      · exact absurd h.symm (by decide)
    | error e =>
      by_cases hk : e.kind = ExcKind.valueError
      · exact ⟨e, rfl, hk⟩
      · exfalso
        simp only [main, hout, List.mem_append, List.mem_cons, List.not_mem_nil,
          or_false] at hmem
        rcases hmem with (h | h) | h
        · exact absurd h (by decide)
        · exact invalid_not_mem_sessionPrompts env stdin h
        · exact report_ne_invalid e hk h.symm
  · rintro ⟨e, he, hk⟩
    simp [main, he, reportLine, hk]

end PredictWithRF
